import Mathlib

/-!
Shallow embedding of `src/api.py` (the AffordableHousing Boost API).

The program drives a headless Chrome browser through Selenium.  Every
interaction with the browser (clicks, waits, script executions, element
lookups, screenshots) is an external effect that either yields a value or
raises an exception.  We model one run of the program against one behaviour
of the browser by an `Env` record: each field records the outcome of the
corresponding browser operation of `selenium_boost_worker` (in program
order; operations executed in a loop are indexed by the iteration).
`selenium_boost_worker` then becomes a total function `Env → … → BoostResponse`
that replays the Python control flow exactly: `try/except` blocks become
matches on `Except`, the accumulated `logs` list and the `screenshot_b64` /
`driver` variables become an explicitly threaded state `WState`.

Python's `finally` block (lines 382-388) only calls `driver.quit()` and
appends to the local `logs` list after the `BoostResponse` has already been
constructed (pydantic validation copies the list), so it has no effect on
the returned response and is not modelled.
-/

/-- Configurable defaults, src/api.py lines 22-27. -/
def DEFAULT_WAIT_TIME : Int := 25

/-- src/api.py line 24. -/
def DEFAULT_MAX_SCROLL_LOOPS : Nat := 60

/-- src/api.py line 26 (seconds of JS polling; the poll loop is modelled by
the iteration budget `Env.pollBudget` the 45-second clock allows). -/
def DEFAULT_JS_POLL_TIMEOUT : Nat := 45

/-- src/api.py line 27 (unused by the worker). -/
def DEFAULT_PER_LISTING_WAIT : Int := 3

/-- The request model, src/api.py lines 33-38.  `num_buttons` carries the
pydantic constraint `Field(1, ge=1)`, modelled by `validateBoostRequest`. -/
structure BoostRequest where
  email : String
  password : String
  num_buttons : Int := 1
  headless : Bool := true
  wait_time : Option Int := some DEFAULT_WAIT_TIME
  deriving Repr, DecidableEq

/-- The response model, src/api.py lines 41-47. -/
structure BoostResponse where
  success : Bool
  clicked_count : Int
  clicked_addresses : List (Option String)
  debug_logs : List String
  error : Option String := none
  screenshot_base64 : Option String := none
  deriving Repr, DecidableEq

/-- Modelled from the spec: pydantic's enforcement of the constraint
`num_buttons: int = Field(1, ge=1)` declared at src/api.py line 36 —
pydantic itself is a library outside src/, and it rejects a request body
with `num_buttons < 1` before the endpoint body runs. -/
def validateBoostRequest (email password : String) (num_buttons : Int)
    (headless : Bool) (wait_time : Option Int) : Except String BoostRequest :=
  if 1 ≤ num_buttons then
    .ok { email := email, password := password, num_buttons := num_buttons,
          headless := headless, wait_time := wait_time }
  else
    .error "num_buttons: ensure this value is greater than or equal to 1"

/-- Python's `x or d` on an optional int: `None` and `0` are falsy. -/
def pyOr (x : Option Int) (d : Int) : Int :=
  match x with
  | none => d
  | some v => if v = 0 then d else v

/-- Python's `repr` of a bool, as rendered inside f-strings. -/
def pyBool (b : Bool) : String := if b then "True" else "False"

/-- Whether `sub` is a prefix of `s` (character lists). -/
def listStartsWith : List Char → List Char → Bool
  | _, [] => true
  | [], _ :: _ => false
  | c :: cs, d :: ds => c == d && listStartsWith cs ds

/-- Whether `sub` occurs inside `s` (character lists). -/
def listContainsSub : List Char → List Char → Bool
  | [], sub => listStartsWith [] sub
  | c :: cs, sub => listStartsWith (c :: cs) sub || listContainsSub cs sub

/-- Substring test, Python's `sub in s`. -/
def strContains (s sub : String) : Bool := listContainsSub s.data sub.data

/-- Python's `str.lower()` (the texts involved are ASCII). -/
def pyLower (s : String) : String := String.mk (s.data.map Char.toLower)

/-- Python's `str.strip()`: drop leading and trailing whitespace. -/
def pyStrip (s : String) : String :=
  String.mk (((s.data.dropWhile Char.isWhitespace).reverse.dropWhile Char.isWhitespace).reverse)

/-- Python's `s[:n]` slice. -/
def pyTake (s : String) (n : Nat) : String := String.mk (s.data.take n)

/-- Python's `str.split()` with no separator: whitespace runs, empty
pieces dropped.  `cur` holds the current word reversed. -/
def splitWsAux : List Char → List Char → List (List Char)
  | cur, [] => if cur.isEmpty then [] else [cur.reverse]
  | cur, c :: cs =>
    if c.isWhitespace then
      if cur.isEmpty then splitWsAux [] cs
      else cur.reverse :: splitWsAux [] cs
    else splitWsAux (c :: cur) cs

/-- `" ".join(pieces)`. -/
def joinWithSpace : List (List Char) → List Char
  | [] => []
  | [w] => w
  | w :: ws => w ++ ' ' :: joinWithSpace ws

/-- Python's `" ".join(s.split())`: split on whitespace runs, rejoin with
single spaces (src/api.py line 313). -/
def pySplitJoin (s : String) : String :=
  String.mk (joinWithSpace (splitWsAux [] s.data))

/-- `get_element_text_via_js` (src/api.py lines 51-58).  The oracle value is
what `execute_script` returns: an exception (`.error`), JS `null`
(`some ↦ none`) or the trimmed innerText/textContent string.  Python then
computes `(txt or "").strip()`; on any exception it returns `""`. -/
def get_element_text_via_js (raw : Except Unit (Option String)) : String :=
  match raw with
  | .ok txt => pyStrip (txt.getD "")
  | .error _ => ""

instance {ε α : Type} [DecidableEq ε] [DecidableEq α] : DecidableEq (Except ε α) := fun x y =>
  match x, y with
  | .ok a, .ok b =>
    if h : a = b then .isTrue (by subst h; rfl) else .isFalse (by simp [h])
  | .error a, .error b =>
    if h : a = b then .isTrue (by subst h; rfl) else .isFalse (by simp [h])
  | .ok _, .error _ => .isFalse (by simp)
  | .error _, .ok _ => .isFalse (by simp)

/-- One ancestor/preceding-address lookup attempt inside
`find_address_for_button`: `found` is whether the two element lookups
succeeded (no exception), `raw` the JS text-script outcome for the found
address element. -/
structure AddrAttempt where
  found : Bool
  raw : Except Unit (Option String)
  deriving Repr, DecidableEq

/-- The outcome of one lookup attempt: the address text when the elements
were found and the text is non-empty (`if addr: return addr`), otherwise
fall through to the next attempt. -/
def attemptText (a : AddrAttempt) : Option String :=
  if a.found then
    let addr := get_element_text_via_js a.raw
    if addr = "" then none else some addr
  else none

/-- One boost-button WebElement, as the browser behaves for it:
text script outcome, `get_attribute("class")` outcome (may raise), the four
address lookup attempts of `find_address_for_button`, and the outcomes of
the scroll-into-view and JS click scripts used when clicking it. -/
structure ButtonData where
  textRaw : Except Unit (Option String)
  classAttr : Except String (Option String)
  addrCard : AddrAttempt
  addrItem : AddrAttempt
  addrWrapper : AddrAttempt
  addrPreceding : AddrAttempt
  scrollIntoView : Except String Unit
  clickViaJs : Except String Unit
  deriving Repr, DecidableEq

/-- `find_address_for_button` (src/api.py lines 61-98): try the
`listing--card` ancestor, then the `listing--item` and
`listing--property--wrapper` ancestors, then the preceding address in the
DOM; every exception is swallowed and means "try the next attempt";
`None` when all fail. -/
def find_address_for_button (btn : ButtonData) : Option String :=
  match attemptText btn.addrCard with
  | some a => some a
  | none =>
    match attemptText btn.addrItem with
    | some a => some a
    | none =>
      match attemptText btn.addrWrapper with
      | some a => some a
      | none => attemptText btn.addrPreceding

/-- One behaviour of the browser across one run of
`selenium_boost_worker`: the outcome of each browser operation, in program
order (loop-executed operations are indexed by iteration). -/
structure Env where
  /-- `get_driver(...)` (line 190). -/
  driverOk : Except String Unit
  /-- `driver.get("https://www.affordablehousing.com/")` (line 194). -/
  openHome : Except String Unit
  /-- wait for + click `li.ah--signin--link` (line 198). -/
  clickHomeSignIn : Except String Unit
  /-- wait for visibility of `input#ah_user` (line 201). -/
  emailVisible : Except String Unit
  /-- `email_input.clear()` (line 202). -/
  emailClear : Except String Unit
  /-- `email_input.send_keys(email)` (line 203). -/
  emailKeys : Except String Unit
  /-- wait for + click `button#signin-button` (line 206). -/
  clickSignIn1 : Except String Unit
  /-- wait for visibility of `input#ah_pass` (line 209). -/
  passVisible : Except String Unit
  /-- `password_input.clear()` (line 210). -/
  passClear : Except String Unit
  /-- `password_input.send_keys(password)` (line 211). -/
  passKeys : Except String Unit
  /-- wait for + click `button#signin-with-password-button` (line 214). -/
  clickSignIn2 : Except String Unit
  /-- `wait.until(EC.url_contains("dashboard"))` (line 218). -/
  urlDashboard : Except String Unit
  /-- `driver.get(listing_url)` (line 223). -/
  openListing : Except String Unit
  /-- the n-th read of `document.body.scrollHeight` (read 0 is line 230,
  read n+1 happens in loop iteration n at line 235). -/
  scrollHeight : Nat → Except String Int
  /-- the `window.scrollBy` execution of loop iteration n (line 232). -/
  scrollBy : Nat → Except String Unit
  /-- how many iterations the 45-second clock of the JS poll loop
  (line 246) allows before `time.time() - start < 45` turns false. -/
  pollBudget : Nat
  /-- `safe_js_count` of boost buttons in poll iteration n (line 247;
  `safe_js_count` swallows exceptions and returns 0). -/
  pollButtons : Nat → Nat
  /-- `safe_js_count` of listing cards in poll iteration n (line 248). -/
  pollCards : Nat → Nat
  /-- `safe_js_count` of addresses in poll iteration n (line 249). -/
  pollAddresses : Nat → Nat
  /-- `js_count_in_iframes` in poll iteration n (line 257): per iframe the
  count, or `none` for the `"err"` entry its except branch records. -/
  pollIframes : Nat → List (Option Nat)
  /-- `driver.find_elements` of boost buttons in the main document
  (line 281). -/
  mainButtons : Except String (List ButtonData)
  /-- `len(driver.find_elements(By.TAG_NAME, "iframe"))` at collection
  time (line 285); unguarded, an exception propagates. -/
  framesLen : Except String Nat
  /-- `driver.switch_to.frame(frames[idx])` (line 288). -/
  iframeSwitch : Except String Unit
  /-- `driver.find_elements` of boost buttons inside the iframe
  (line 289). -/
  iframeFind : Except String (List ButtonData)
  /-- `driver.switch_to.default_content()` inside the try (line 291). -/
  iframeDefault1 : Except String Unit
  /-- `driver.switch_to.default_content()` inside the except branch
  (line 294); unguarded, an exception propagates. -/
  iframeDefault2 : Except String Unit
  /-- the JS fallback collection (line 300); its except branch swallows
  the message. -/
  jsButtons : Except Unit (List ButtonData)
  /-- the n-th call of `driver.get_screenshot_as_base64()` in this run. -/
  screenshotResult : Nat → Except Unit String
  /-- `traceback.format_exc()` as appended by the outer except branch
  (line 365). -/
  tbText : String

/-- The mutable local state of `selenium_boost_worker`: the `logs` list,
the `screenshot_b64` variable, how many screenshot calls happened so far,
and whether `driver` is non-None yet. -/
structure WState where
  logs : List String
  shot : Option String
  shotCalls : Nat
  driver : Bool
  deriving Repr, DecidableEq

/-- The state/exception shape of the worker body: a step either returns a
value with the updated state or raises a Python exception, whose message
and the state at raise time flow to the outer `except` handler. -/
abbrev M (α : Type) := WState → Except (String × WState) (α × WState)

def mpure {α : Type} (a : α) : M α := fun s => .ok (a, s)

def mbind {α β : Type} (x : M α) (f : α → M β) : M β := fun s =>
  match x s with
  | .ok (a, s1) => f a s1
  | .error e => .error e

/-- `logs.append(m)`. -/
def logMsg (m : String) : M Unit := fun s =>
  .ok ((), { s with logs := s.logs ++ [m] })

/-- Run a fallible browser operation that returns nothing. -/
def liftStep (e : Except String Unit) : M Unit := fun s =>
  match e with
  | .ok _ => .ok ((), s)
  | .error m => .error (m, s)

/-- Run a fallible browser operation that returns a value. -/
def liftStepV {α : Type} (e : Except String α) : M α := fun s =>
  match e with
  | .ok v => .ok (v, s)
  | .error m => .error (m, s)

/-- `raise Exception(m)`. -/
def raiseExc {α : Type} (m : String) : M α := fun s => .error (m, s)

/-- `driver = get_driver(...)` (line 190): on success the local `driver`
becomes non-None. -/
def startDriver (env : Env) : M Unit := fun s =>
  match env.driverOk with
  | .ok _ => .ok ((), { s with driver := true })
  | .error m => .error (m, s)

/-- A `try: screenshot_b64 = driver.get_screenshot_as_base64(); log ok
except: log fail` block (lines 271-275 and 329-333). -/
def tryScreenshot (env : Env) (okMsg failMsg : String) : M Unit := fun s =>
  match env.screenshotResult s.shotCalls with
  | .ok b64 =>
    .ok ((), { s with shot := some b64, shotCalls := s.shotCalls + 1,
                      logs := s.logs ++ [okMsg] })
  | .error _ =>
    .ok ((), { s with shotCalls := s.shotCalls + 1,
                      logs := s.logs ++ [failMsg] })

def listing_url : String :=
  "https://www.affordablehousing.com/v4/pages/Listing/Listing.aspx"

/-- The login flow and listing navigation, src/api.py lines 193-224. -/
def loginPhase (env : Env) : M Unit :=
  mbind (liftStep env.openHome) fun _ =>
  mbind (logMsg "Opened affordablehousing.com") fun _ =>
  mbind (liftStep env.clickHomeSignIn) fun _ =>
  mbind (logMsg "Clicked homepage Sign In") fun _ =>
  mbind (liftStep env.emailVisible) fun _ =>
  mbind (liftStep env.emailClear) fun _ =>
  mbind (liftStep env.emailKeys) fun _ =>
  mbind (logMsg "Entered email") fun _ =>
  mbind (liftStep env.clickSignIn1) fun _ =>
  mbind (logMsg "Clicked first Sign In button") fun _ =>
  mbind (liftStep env.passVisible) fun _ =>
  mbind (liftStep env.passClear) fun _ =>
  mbind (liftStep env.passKeys) fun _ =>
  mbind (logMsg "Entered password") fun _ =>
  mbind (liftStep env.clickSignIn2) fun _ =>
  mbind (logMsg "Clicked final Sign In button") fun _ =>
  mbind (liftStep env.urlDashboard) fun _ =>
  mbind (logMsg "Login confirmed (dashboard)") fun _ =>
  mbind (liftStep env.openListing) fun _ =>
  logMsg ("Navigated to " ++ listing_url)

/-- The incremental scroll loop, src/api.py lines 229-239.  `loops` is the
Python `loops` counter, `fuel = MAX_SCROLL_LOOPS - loops` what the guard
`loops < MAX_SCROLL_LOOPS` still allows, `lastH` the last observed
`document.body.scrollHeight`.  Returns the final `loops` value. -/
def scrollLoopAux (env : Env) : Int → Nat → Nat → Except String Nat
  | _, loops, 0 => .ok loops
  | lastH, loops, fuel + 1 =>
    match env.scrollBy loops with
    | .error e => .error e
    | .ok _ =>
      match env.scrollHeight (loops + 1) with
      | .error e => .error e
      | .ok newH =>
        if newH = lastH then .ok (loops + 1)
        else scrollLoopAux env newH (loops + 1) fuel

/-- Initial height read, the scroll loop, and the closing log
(src/api.py lines 226-240). -/
def scrollPhase (env : Env) : M Unit :=
  mbind (liftStepV (env.scrollHeight 0)) fun h0 =>
  mbind (liftStepV (scrollLoopAux env h0 0 DEFAULT_MAX_SCROLL_LOOPS)) fun loops =>
  logMsg (s!"Finished incremental scrolling ({loops} loops)")

/-- Where the JS poll found content (Python's `found_context`). -/
inductive FoundCtx where
  | main
  | iframe (idx : Nat)
  deriving Repr, DecidableEq

/-- `for idx, count in iframe_counts: if isinstance(count, int) and
count > 0: … break` (src/api.py lines 258-262). -/
def firstPositiveIframe : List (Option Nat) → Nat → Option (Nat × Nat)
  | [], _ => none
  | some c :: rest, i =>
    if 0 < c then some (i, c) else firstPositiveIframe rest (i + 1)
  | none :: rest, i => firstPositiveIframe rest (i + 1)

/-- The JS poll loop, src/api.py lines 243-266.  `i` is the iteration
index, `fuel` the iterations the 45-second clock still allows.  Returns
`found_context`, `found_count` and the `[JS POLL]` log entries. -/
def pollLoopAux (env : Env) : Nat → Nat → Option FoundCtx × Nat × List String
  | _, 0 => (none, 0, [])
  | i, fuel + 1 =>
    let b := env.pollButtons i
    let c := env.pollCards i
    let a := env.pollAddresses i
    let entry := s!"[JS POLL] buttons={b}, cards={c}, addresses={a}"
    if 0 < b ∨ 0 < c ∨ 0 < a then
      (some .main, max b (max c a), [entry])
    else
      match firstPositiveIframe (env.pollIframes i) 0 with
      | some (idx, count) => (some (.iframe idx), count, [entry])
      | none =>
        let r := pollLoopAux env (i + 1) fuel
        (r.1, r.2.1, entry :: r.2.2)

/-- Python's rendering of `found_context` in the result log. -/
def renderFoundCtx : Option FoundCtx → String
  | none => "None"
  | some .main => "('main', None)"
  | some (.iframe idx) => s!"('iframe', {idx})"

def pollResultMsg (fcs : String) (n : Nat) : String :=
  s!"[JS POLL RESULT] found_context={fcs} found_count={n}"

/-- The poll loop as a worker step: append its logs, keep its outcome. -/
def pollPhase (env : Env) : M (Option FoundCtx × Nat) := fun s =>
  let r := pollLoopAux env 0 env.pollBudget
  .ok ((r.1, r.2.1), { s with logs := s.logs ++ r.2.2 })

/-- Poll, log the result, and on no context take the diagnostic screenshot
and raise (src/api.py lines 243-276). -/
def pollPhaseFull (env : Env) : M (FoundCtx × Nat) :=
  mbind (pollPhase env) fun r =>
  mbind (logMsg (pollResultMsg (renderFoundCtx r.1) r.2)) fun _ =>
  match r.1 with
  | some fc => mpure (fc, r.2)
  | none =>
    mbind (tryScreenshot env "No cards/buttons found - saved screenshot (base64)"
            "No cards/buttons found - screenshot failed") fun _ =>
    raiseExc "No listing cards or buttons found after JS polling"

/-- Collect buttons in the main document (src/api.py lines 280-282). -/
def collectMain (env : Env) : M (List ButtonData) :=
  mbind (liftStepV env.mainButtons) fun buttons =>
  let n := buttons.length
  mbind (logMsg (s!"Collected {n} button elements in main document (selenium)")) fun _ =>
  mpure buttons

/-- The except branch of the iframe collection (src/api.py lines 292-295):
log the error, switch back to default content (unguarded) and clear the
collected buttons. -/
def iframeExceptBranch (env : Env) (idx : Nat) (e : String) : M (List ButtonData) :=
  mbind (logMsg (s!"Error collecting buttons from iframe #{idx}: {e}")) fun _ =>
  mbind (liftStep env.iframeDefault2) fun _ =>
  mpure []

/-- Collect buttons inside iframe `idx` (src/api.py lines 283-295). -/
def collectIframe (env : Env) (idx : Nat) : M (List ButtonData) :=
  mbind (liftStepV env.framesLen) fun flen =>
  if idx < flen then
    match env.iframeSwitch with
    | .error e => iframeExceptBranch env idx e
    | .ok _ =>
      match env.iframeFind with
      | .error e => iframeExceptBranch env idx e
      | .ok buttons =>
        let n := buttons.length
        mbind (logMsg (s!"Collected {n} buttons inside iframe #{idx}")) fun _ =>
        match env.iframeDefault1 with
        | .error e => iframeExceptBranch env idx e
        | .ok _ => mpure buttons
  else
    mpure []

/-- The JS fallback when Selenium returned no buttons
(src/api.py lines 298-304). -/
def collectFallback (env : Env) (buttons : List ButtonData) : M (List ButtonData) :=
  if buttons.isEmpty then
    match env.jsButtons with
    | .ok bs =>
      let n := bs.length
      mbind (logMsg (s!"Collected {n} button elements via JS->Selenium")) fun _ =>
      mpure bs
    | .error _ =>
      mbind (logMsg "Failed JS->Selenium button collection") fun _ =>
      mpure []
  else mpure buttons

/-- Button collection for the found context plus fallback and debug log
(src/api.py lines 278-306). -/
def collectPhase (env : Env) (fc : FoundCtx) : M (List ButtonData) :=
  mbind (match fc with
         | .main => collectMain env
         | .iframe idx => collectIframe env idx) fun buttons =>
  mbind (collectFallback env buttons) fun buttons2 =>
  let n := buttons2.length
  mbind (logMsg (s!"[DEBUG] total button WebElements collected: {n}")) fun _ =>
  mpure buttons2

/-- One entry of Python's `boostable` list: `(address, btn, norm)`. -/
abbrev Boostable := Option String × ButtonData × String

/-- The filter loop, src/api.py lines 309-324: keep a button whose
normalised lowercase text contains "boost" and that is not in progress;
an exception while inspecting a button logs a warning and skips it.
`idx` is Python's `enumerate(buttons, start=1)` counter.  Returns the
`boostable` list and the log entries. -/
def filterButtons : List ButtonData → Nat → List Boostable × List String
  | [], _ => ([], [])
  | btn :: rest, idx =>
    let btn_text := pyLower (get_element_text_via_js btn.textRaw)
    let norm := pySplitJoin btn_text
    match btn.classAttr with
    | .error e =>
      let r := filterButtons rest (idx + 1)
      (r.1, s!"[WARN] error inspecting btn#{idx}: {e}" :: r.2)
    | .ok cls =>
      let classes := pyLower (cls.getD "")
      let in_progress := strContains classes "usage-boost-inprogress"
        || strContains norm "progress" || strContains norm "inprogress"
      if strContains norm "boost" && !in_progress then
        let address := find_address_for_button btn
        let addrShow := address.getD "<none>"
        let r := filterButtons rest (idx + 1)
        ((address, btn, norm) :: r.1,
         s!"[FOUND] btn#{idx} text='{norm}' addr='{addrShow}'" :: r.2)
      else
        let norm60 := pyTake norm 60
        let cls80 := pyTake classes 80
        let ip := pyBool in_progress
        let r := filterButtons rest (idx + 1)
        (r.1, s!"[SKIP] btn#{idx} text='{norm60}' class='{cls80}' in_progress={ip}" :: r.2)

/-- The filter loop as a worker step. -/
def filterPhase (buttons : List ButtonData) : M (List Boostable) := fun s =>
  let r := filterButtons buttons 1
  .ok (r.1, { s with logs := s.logs ++ r.2 })

/-- Filter, log the total, and on an empty result take the diagnostic
screenshot and raise (src/api.py lines 309-334). -/
def boostablePhase (env : Env) (buttons : List ButtonData) : M (List Boostable) :=
  mbind (filterPhase buttons) fun boostable =>
  let n := boostable.length
  mbind (logMsg (s!"Total boostable detected: {n}")) fun _ =>
  if boostable.isEmpty then
    mbind (tryScreenshot env "No boostable buttons after filtering - saved screenshot (base64)"
            "No boostable buttons - screenshot failed") fun _ =>
    raiseExc "No boostable buttons found to click"
  else mpure boostable

/-- Everything after the login flow: scroll, poll, collect, filter. -/
def postLoginPhase (env : Env) : M (List Boostable) :=
  mbind (scrollPhase env) fun _ =>
  mbind (pollPhaseFull env) fun fcn =>
  mbind (collectPhase env fcn.1) fun buttons =>
  boostablePhase env buttons

/-- The whole try-block of `selenium_boost_worker` up to (excluding) the
click loop, src/api.py lines 186-334. -/
def stagePreClick (env : Env) : M (List Boostable) :=
  mbind (logMsg "Starting Selenium worker") fun _ =>
  mbind (startDriver env) fun _ =>
  mbind (loginPhase env) fun _ =>
  postLoginPhase env

/-- The click loop, src/api.py lines 339-351: for each selected button,
scroll it into view and click it via JS; on success count it and record
its address, on an exception log the error and continue.  `i` is Python's
`i + 1` (1-based).  Returns `(clicked, clicked_addresses, log entries)`. -/
def clickButtons : List Boostable → Nat → Nat × List (Option String) × List String
  | [], _ => (0, [], [])
  | (address, btn, text) :: rest, i =>
    let aShow := address.getD "unknown"
    match btn.scrollIntoView with
    | .error ce =>
      let r := clickButtons rest (i + 1)
      (r.1, r.2.1, s!"Error clicking boost #{i} ({aShow}): {ce}" :: r.2.2)
    | .ok _ =>
      match btn.clickViaJs with
      | .error ce =>
        let r := clickButtons rest (i + 1)
        (r.1, r.2.1, s!"Error clicking boost #{i} ({aShow}): {ce}" :: r.2.2)
      | .ok _ =>
        let aShow2 := address.getD "<address not found>"
        let r := clickButtons rest (i + 1)
        (r.1 + 1, address :: r.2.1,
         s!"Clicked boost for: {aShow2} (text='{text}')" :: r.2.2)

/-- The worker's local state at entry: empty logs, no screenshot, no
driver. -/
def initState : WState := { logs := [], shot := none, shotCalls := 0, driver := false }

/-- The outer except branch, src/api.py lines 362-381: log the exception
and the traceback, try a screenshot when the driver exists (keeping the
previous screenshot on failure), and return the failure response. -/
def failResponse (env : Env) (msg : String) (st : WState) : BoostResponse :=
  let logs1 := st.logs ++ [s!"Unhandled exception: {msg}", env.tbText]
  let shotAndLogs :=
    if st.driver then
      match env.screenshotResult st.shotCalls with
      | .ok b64 => (some b64, logs1 ++ ["Captured error screenshot (base64)"])
      | .error _ => (st.shot, logs1)
    else (st.shot, logs1)
  { success := false
    clicked_count := 0
    clicked_addresses := []
    debug_logs := shotAndLogs.2
    error := some msg
    screenshot_base64 := shotAndLogs.1 }

/-- `selenium_boost_worker` (src/api.py lines 180-388) against the browser
behaviour `env`.  `email`, `password`, `headless` and `wait_time` only
configure the browser session, whose behaviour `env` already records. -/
def selenium_boost_worker (env : Env) (email password : String) (num_buttons : Int)
    (headless : Bool) (wait_time : Int) : BoostResponse :=
  match stagePreClick env initState with
  | .error (msg, st) => failResponse env msg st
  | .ok (boostable, st) =>
    let to_click : Int := min num_buttons (boostable.length : Int)
    let r := clickButtons (boostable.take to_click.toNat) 1
    { success := true
      clicked_count := (r.1 : Int)
      clicked_addresses := r.2.1
      debug_logs := st.logs ++ r.2.2
      error := none
      screenshot_base64 := st.shot }

/-- `loop.run_in_executor(None, selenium_boost_worker, …)` as awaited by
the endpoint: the worker runs off the event loop in an executor thread;
`fault` is an exception of the executor machinery itself (the worker never
raises). -/
def run_in_executor (fault : Option String) (f : Unit → BoostResponse) :
    Except String BoostResponse :=
  match fault with
  | some m => .error m
  | none => .ok (f ())

/-- `boost_endpoint` (src/api.py lines 392-409): await the worker through
`run_in_executor` and return its response; an exception becomes an
HTTPException with status 500. -/
def boost_endpoint (env : Env) (executorFault : Option String) (req : BoostRequest) :
    Except (Int × String) BoostResponse :=
  match run_in_executor executorFault
      (fun _ => selenium_boost_worker env req.email req.password req.num_buttons
                  req.headless (pyOr req.wait_time DEFAULT_WAIT_TIME)) with
  | .ok r => .ok r
  | .error m => .error (500, s!"Server error: {m}")

inductive HttpMethod where
  | get
  | post
  deriving Repr, DecidableEq

/-- The routes the FastAPI application registers: `@app.post("/boost")`
(src/api.py line 392) and `@app.get("/diag")` (src/api.py line 413). -/
def app_routes : List (HttpMethod × String) :=
  [(HttpMethod.post, "/boost"), (HttpMethod.get, "/diag")]

/-- A browser behaviour for a fully successful run: every operation
succeeds, the page height stalls after two scroll iterations, the first
JS poll sees one boost button in the main document, and the single
collected button is boostable with a found address. -/
def happyBtn : ButtonData :=
  { textRaw := .ok (some "Boost Now")
    classAttr := .ok (some "cmn--btn usage-boost-button")
    addrCard := { found := true, raw := .ok (some "123 Main St") }
    addrItem := { found := false, raw := .ok none }
    addrWrapper := { found := false, raw := .ok none }
    addrPreceding := { found := false, raw := .ok none }
    scrollIntoView := .ok ()
    clickViaJs := .ok () }

def envHappy : Env :=
  { driverOk := .ok ()
    openHome := .ok ()
    clickHomeSignIn := .ok ()
    emailVisible := .ok ()
    emailClear := .ok ()
    emailKeys := .ok ()
    clickSignIn1 := .ok ()
    passVisible := .ok ()
    passClear := .ok ()
    passKeys := .ok ()
    clickSignIn2 := .ok ()
    urlDashboard := .ok ()
    openListing := .ok ()
    scrollHeight := fun n => .ok (if n = 0 then 100 else 200)
    scrollBy := fun _ => .ok ()
    pollBudget := 5
    pollButtons := fun _ => 1
    pollCards := fun _ => 0
    pollAddresses := fun _ => 0
    pollIframes := fun _ => []
    mainButtons := .ok [happyBtn]
    framesLen := .ok 0
    iframeSwitch := .ok ()
    iframeFind := .ok []
    iframeDefault1 := .ok ()
    iframeDefault2 := .ok ()
    jsButtons := .ok []
    screenshotResult := fun _ => .ok "iVBORw0KGgo="
    tbText := "Traceback (most recent call last): RemoteDriverError" }

/-- The same behaviour except that creating the Chrome driver fails
immediately. -/
def envFail : Env := { envHappy with driverOk := .error "boom" }


/-! ### Lemma layer: log monotonicity and screenshot preservation -/

/-- The worker state an `M`-step ends in, whether it returned or raised. -/
def outState {α : Type} : Except (String × WState) (α × WState) → WState
  | .ok (_, s) => s
  | .error (_, s) => s

/-- A step only ever appends to the `logs` list. -/
def MonoM {α : Type} (x : M α) : Prop :=
  ∀ s : WState, s.logs <+: (outState (x s)).logs

/-- A step that returns (does not raise) leaves `screenshot_b64`
unchanged. -/
def PreservesShot {α : Type} (x : M α) : Prop :=
  ∀ s a s1, x s = .ok (a, s1) → s1.shot = s.shot

theorem monoM_mpure {α : Type} (a : α) : MonoM (mpure a) := by
  intro s; simp [mpure, outState]

theorem monoM_mbind {α β : Type} {x : M α} {f : α → M β}
    (hx : MonoM x) (hf : ∀ a, MonoM (f a)) : MonoM (mbind x f) := by
  intro s
  have h1 := hx s
  unfold mbind
  cases hxs : x s with
  | ok p =>
    rw [hxs] at h1
    simp only [outState] at h1
    exact h1.trans (hf p.1 p.2)
  | error e =>
    rw [hxs] at h1
    simpa [outState] using h1

theorem monoM_logMsg (m : String) : MonoM (logMsg m) := by
  intro s; simp [logMsg, outState]

theorem monoM_liftStep (e : Except String Unit) : MonoM (liftStep e) := by
  intro s; cases e <;> simp [liftStep, outState]

theorem monoM_liftStepV {α : Type} (e : Except String α) : MonoM (liftStepV e) := by
  intro s; cases e <;> simp [liftStepV, outState]

theorem monoM_raiseExc {α : Type} (m : String) : MonoM (raiseExc (α := α) m) := by
  intro s; simp [raiseExc, outState]

theorem monoM_startDriver (env : Env) : MonoM (startDriver env) := by
  intro s; cases h : env.driverOk <;> simp [startDriver, h, outState]

theorem monoM_tryScreenshot (env : Env) (a b : String) : MonoM (tryScreenshot env a b) := by
  intro s
  cases h : env.screenshotResult s.shotCalls <;> simp [tryScreenshot, h, outState]

theorem monoM_pollPhase (env : Env) : MonoM (pollPhase env) := by
  intro s; simp [pollPhase, outState]

theorem monoM_filterPhase (buttons : List ButtonData) : MonoM (filterPhase buttons) := by
  intro s; simp [filterPhase, outState]

theorem monoM_loginPhase (env : Env) : MonoM (loginPhase env) := by
  unfold loginPhase
  repeat
    first
    | exact monoM_logMsg _
    | apply monoM_mbind (monoM_liftStep _) (fun _ => ?_)
    | apply monoM_mbind (monoM_logMsg _) (fun _ => ?_)

theorem monoM_scrollPhase (env : Env) : MonoM (scrollPhase env) := by
  unfold scrollPhase
  apply monoM_mbind (monoM_liftStepV _) (fun _ => ?_)
  apply monoM_mbind (monoM_liftStepV _) (fun _ => ?_)
  exact monoM_logMsg _

theorem monoM_pollPhaseFull (env : Env) : MonoM (pollPhaseFull env) := by
  unfold pollPhaseFull
  apply monoM_mbind (monoM_pollPhase env) (fun r => ?_)
  apply monoM_mbind (monoM_logMsg _) (fun _ => ?_)
  cases r.1 with
  | none =>
    apply monoM_mbind (monoM_tryScreenshot env _ _) (fun _ => monoM_raiseExc _)
  | some fc => exact monoM_mpure _

theorem monoM_collectMain (env : Env) : MonoM (collectMain env) := by
  unfold collectMain
  apply monoM_mbind (monoM_liftStepV _) (fun buttons => ?_)
  exact monoM_mbind (monoM_logMsg _) (fun _ => monoM_mpure _)

theorem monoM_iframeExceptBranch (env : Env) (idx : Nat) (e : String) :
    MonoM (iframeExceptBranch env idx e) := by
  unfold iframeExceptBranch
  apply monoM_mbind (monoM_logMsg _) (fun _ => ?_)
  exact monoM_mbind (monoM_liftStep _) (fun _ => monoM_mpure _)

theorem monoM_collectIframe (env : Env) (idx : Nat) : MonoM (collectIframe env idx) := by
  unfold collectIframe
  apply monoM_mbind (monoM_liftStepV _) (fun flen => ?_)
  by_cases h : idx < flen
  · simp only [h, if_true]
    cases env.iframeSwitch with
    | error e => exact monoM_iframeExceptBranch env idx e
    | ok _ =>
      cases env.iframeFind with
      | error e => exact monoM_iframeExceptBranch env idx e
      | ok buttons =>
        apply monoM_mbind (monoM_logMsg _) (fun _ => ?_)
        cases env.iframeDefault1 with
        | error e => exact monoM_iframeExceptBranch env idx e
        | ok _ => exact monoM_mpure _
  · simp only [h, if_false]
    exact monoM_mpure _

theorem monoM_collectFallback (env : Env) (buttons : List ButtonData) :
    MonoM (collectFallback env buttons) := by
  unfold collectFallback
  by_cases h : buttons.isEmpty
  · simp only [h, if_true]
    cases env.jsButtons with
    | ok bs => exact monoM_mbind (monoM_logMsg _) (fun _ => monoM_mpure _)
    | error _ => exact monoM_mbind (monoM_logMsg _) (fun _ => monoM_mpure _)
  · simp only [h, if_false]
    exact monoM_mpure _

theorem monoM_collectPhase (env : Env) (fc : FoundCtx) : MonoM (collectPhase env fc) := by
  unfold collectPhase
  apply monoM_mbind ?_ (fun buttons => ?_)
  · cases fc with
    | main => exact monoM_collectMain env
    | iframe idx => exact monoM_collectIframe env idx
  · apply monoM_mbind (monoM_collectFallback env _) (fun _ => ?_)
    exact monoM_mbind (monoM_logMsg _) (fun _ => monoM_mpure _)

theorem monoM_boostablePhase (env : Env) (buttons : List ButtonData) :
    MonoM (boostablePhase env buttons) := by
  unfold boostablePhase
  apply monoM_mbind (monoM_filterPhase _) (fun boostable => ?_)
  apply monoM_mbind (monoM_logMsg _) (fun _ => ?_)
  by_cases h : boostable.isEmpty
  · simp only [h, if_true]
    exact monoM_mbind (monoM_tryScreenshot env _ _) (fun _ => monoM_raiseExc _)
  · simp only [h, if_false]
    exact monoM_mpure _

theorem monoM_postLoginPhase (env : Env) : MonoM (postLoginPhase env) := by
  unfold postLoginPhase
  apply monoM_mbind (monoM_scrollPhase env) (fun _ => ?_)
  apply monoM_mbind (monoM_pollPhaseFull env) (fun fcn => ?_)
  apply monoM_mbind (monoM_collectPhase env fcn.1) (fun buttons => ?_)
  exact monoM_boostablePhase env buttons

theorem monoM_stagePreClick (env : Env) : MonoM (stagePreClick env) := by
  unfold stagePreClick
  apply monoM_mbind (monoM_logMsg _) (fun _ => ?_)
  apply monoM_mbind (monoM_startDriver env) (fun _ => ?_)
  exact monoM_mbind (monoM_loginPhase env) (fun _ => monoM_postLoginPhase env)

theorem preservesShot_mpure {α : Type} (a : α) : PreservesShot (mpure a) := by
  intro s b s1 h
  simp [mpure] at h
  rw [h.2]

theorem preservesShot_mbind {α β : Type} {x : M α} {f : α → M β}
    (hx : PreservesShot x) (hf : ∀ a, PreservesShot (f a)) :
    PreservesShot (mbind x f) := by
  intro s b s2 h
  unfold mbind at h
  cases hxs : x s with
  | ok p =>
    rw [hxs] at h
    exact (hf p.1 p.2 b s2 h).trans (hx s p.1 p.2 hxs)
  | error e => rw [hxs] at h; cases h

theorem preservesShot_logMsg (m : String) : PreservesShot (logMsg m) := by
  intro s a s1 h
  simp [logMsg] at h
  subst h
  rfl

theorem preservesShot_liftStep (e : Except String Unit) : PreservesShot (liftStep e) := by
  intro s a s1 h
  cases e with
  | ok v => simp [liftStep] at h; subst h; rfl
  | error m => simp [liftStep] at h

theorem preservesShot_liftStepV {α : Type} (e : Except String α) :
    PreservesShot (liftStepV e) := by
  intro s a s1 h
  cases e with
  | ok v =>
    simp [liftStepV] at h
    obtain ⟨-, h2⟩ := h
    subst h2
    rfl
  | error m => simp [liftStepV] at h

theorem preservesShot_raiseExc {α : Type} (m : String) :
    PreservesShot (raiseExc (α := α) m) := by
  intro s a s1 h; cases h

theorem preservesShot_startDriver (env : Env) : PreservesShot (startDriver env) := by
  intro s a s1 h
  cases he : env.driverOk with
  | ok v => simp [startDriver, he] at h; subst h; rfl
  | error m => simp [startDriver, he] at h

theorem preservesShot_pollPhase (env : Env) : PreservesShot (pollPhase env) := by
  intro s a s1 h
  simp [pollPhase] at h
  obtain ⟨-, h2⟩ := h
  subst h2
  rfl

theorem preservesShot_filterPhase (buttons : List ButtonData) :
    PreservesShot (filterPhase buttons) := by
  intro s a s1 h
  simp [filterPhase] at h
  obtain ⟨-, h2⟩ := h
  subst h2
  rfl

/-- The screenshot-then-raise composite never returns, so it trivially
preserves the screenshot on return. -/
theorem preservesShot_screenshotRaise {α : Type} (env : Env) (a b m : String) :
    PreservesShot (mbind (tryScreenshot env a b) fun _ => raiseExc (α := α) m) := by
  intro s v s1 h
  unfold mbind tryScreenshot at h
  cases he : env.screenshotResult s.shotCalls <;> rw [he] at h <;> cases h

theorem preservesShot_loginPhase (env : Env) : PreservesShot (loginPhase env) := by
  unfold loginPhase
  repeat
    first
    | exact preservesShot_logMsg _
    | apply preservesShot_mbind (preservesShot_liftStep _) (fun _ => ?_)
    | apply preservesShot_mbind (preservesShot_logMsg _) (fun _ => ?_)

theorem preservesShot_scrollPhase (env : Env) : PreservesShot (scrollPhase env) := by
  unfold scrollPhase
  apply preservesShot_mbind (preservesShot_liftStepV _) (fun _ => ?_)
  apply preservesShot_mbind (preservesShot_liftStepV _) (fun _ => ?_)
  exact preservesShot_logMsg _

theorem preservesShot_pollPhaseFull (env : Env) : PreservesShot (pollPhaseFull env) := by
  unfold pollPhaseFull
  apply preservesShot_mbind (preservesShot_pollPhase env) (fun r => ?_)
  apply preservesShot_mbind (preservesShot_logMsg _) (fun _ => ?_)
  cases r.1 with
  | none => exact preservesShot_screenshotRaise env _ _ _
  | some fc => exact preservesShot_mpure _

theorem preservesShot_collectMain (env : Env) : PreservesShot (collectMain env) := by
  unfold collectMain
  apply preservesShot_mbind (preservesShot_liftStepV _) (fun buttons => ?_)
  exact preservesShot_mbind (preservesShot_logMsg _) (fun _ => preservesShot_mpure _)

theorem preservesShot_iframeExceptBranch (env : Env) (idx : Nat) (e : String) :
    PreservesShot (iframeExceptBranch env idx e) := by
  unfold iframeExceptBranch
  apply preservesShot_mbind (preservesShot_logMsg _) (fun _ => ?_)
  exact preservesShot_mbind (preservesShot_liftStep _) (fun _ => preservesShot_mpure _)

theorem preservesShot_collectIframe (env : Env) (idx : Nat) :
    PreservesShot (collectIframe env idx) := by
  unfold collectIframe
  apply preservesShot_mbind (preservesShot_liftStepV _) (fun flen => ?_)
  by_cases h : idx < flen
  · simp only [h, if_true]
    cases env.iframeSwitch with
    | error e => exact preservesShot_iframeExceptBranch env idx e
    | ok _ =>
      cases env.iframeFind with
      | error e => exact preservesShot_iframeExceptBranch env idx e
      | ok buttons =>
        apply preservesShot_mbind (preservesShot_logMsg _) (fun _ => ?_)
        cases env.iframeDefault1 with
        | error e => exact preservesShot_iframeExceptBranch env idx e
        | ok _ => exact preservesShot_mpure _
  · simp only [h, if_false]
    exact preservesShot_mpure _

theorem preservesShot_collectFallback (env : Env) (buttons : List ButtonData) :
    PreservesShot (collectFallback env buttons) := by
  unfold collectFallback
  by_cases h : buttons.isEmpty
  · simp only [h, if_true]
    cases env.jsButtons with
    | ok bs => exact preservesShot_mbind (preservesShot_logMsg _) (fun _ => preservesShot_mpure _)
    | error _ => exact preservesShot_mbind (preservesShot_logMsg _) (fun _ => preservesShot_mpure _)
  · simp only [h, if_false]
    exact preservesShot_mpure _

theorem preservesShot_collectPhase (env : Env) (fc : FoundCtx) :
    PreservesShot (collectPhase env fc) := by
  unfold collectPhase
  apply preservesShot_mbind ?_ (fun buttons => ?_)
  · cases fc with
    | main => exact preservesShot_collectMain env
    | iframe idx => exact preservesShot_collectIframe env idx
  · apply preservesShot_mbind (preservesShot_collectFallback env _) (fun _ => ?_)
    exact preservesShot_mbind (preservesShot_logMsg _) (fun _ => preservesShot_mpure _)

theorem preservesShot_boostablePhase (env : Env) (buttons : List ButtonData) :
    PreservesShot (boostablePhase env buttons) := by
  unfold boostablePhase
  apply preservesShot_mbind (preservesShot_filterPhase _) (fun boostable => ?_)
  apply preservesShot_mbind (preservesShot_logMsg _) (fun _ => ?_)
  by_cases h : boostable.isEmpty
  · simp only [h, if_true]
    exact preservesShot_screenshotRaise env _ _ _
  · simp only [h, if_false]
    exact preservesShot_mpure _

theorem preservesShot_postLoginPhase (env : Env) : PreservesShot (postLoginPhase env) := by
  unfold postLoginPhase
  apply preservesShot_mbind (preservesShot_scrollPhase env) (fun _ => ?_)
  apply preservesShot_mbind (preservesShot_pollPhaseFull env) (fun fcn => ?_)
  apply preservesShot_mbind (preservesShot_collectPhase env fcn.1) (fun buttons => ?_)
  exact preservesShot_boostablePhase env buttons

theorem preservesShot_stagePreClick (env : Env) : PreservesShot (stagePreClick env) := by
  unfold stagePreClick
  apply preservesShot_mbind (preservesShot_logMsg _) (fun _ => ?_)
  apply preservesShot_mbind (preservesShot_startDriver env) (fun _ => ?_)
  exact preservesShot_mbind (preservesShot_loginPhase env) (fun _ => preservesShot_postLoginPhase env)

/-! ### Loop lemmas -/

/-- The scroll loop can add at most `fuel` further iterations to the
`loops` counter. -/
theorem scrollLoopAux_le (env : Env) :
    ∀ (fuel : Nat) (lastH : Int) (loops m : Nat),
      scrollLoopAux env lastH loops fuel = .ok m → m ≤ loops + fuel := by
  intro fuel
  induction fuel with
  | zero =>
    intro lastH loops m h
    simp [scrollLoopAux] at h
    omega
  | succ f ih =>
    intro lastH loops m h
    unfold scrollLoopAux at h
    cases hb : env.scrollBy loops with
    | error e => rw [hb] at h; cases h
    | ok _ =>
      rw [hb] at h
      cases hh : env.scrollHeight (loops + 1) with
      | error e => rw [hh] at h; cases h
      | ok newH =>
        rw [hh] at h
        by_cases heq : newH = lastH
        · simp [heq] at h
          omega
        · simp [heq] at h
          have := ih newH (loops + 1) m h
          omega

/-- When every scroll operation succeeds and the observed heights are
`heights`, the loop exits right after the first iteration whose height
matches the previous one. -/
theorem scrollLoopAux_stall (env : Env) (heights : Nat → Int)
    (hH : ∀ n, env.scrollHeight n = .ok (heights n))
    (hB : ∀ n, env.scrollBy n = .ok ()) :
    ∀ (k i fuel : Nat), k < fuel →
      heights (i + k + 1) = heights (i + k) →
      (∀ j, j < k → heights (i + j + 1) ≠ heights (i + j)) →
      scrollLoopAux env (heights i) i fuel = .ok (i + k + 1) := by
  intro k
  induction k with
  | zero =>
    intro i fuel hfuel hstall _
    cases fuel with
    | zero => omega
    | succ f =>
      unfold scrollLoopAux
      rw [hB i, hH (i + 1)]
      simp only [Nat.add_zero] at hstall
      simp [hstall]
  | succ k ih =>
    intro i fuel hfuel hstall hfirst
    cases fuel with
    | zero => omega
    | succ f =>
      unfold scrollLoopAux
      rw [hB i, hH (i + 1)]
      have hne : heights (i + 1) ≠ heights i := by
        have := hfirst 0 (Nat.succ_pos k)
        simpa using this
      have hstall' : heights ((i + 1) + k + 1) = heights ((i + 1) + k) := by
        have harr : (i + 1) + k = i + (k + 1) := by omega
        rw [harr]
        exact hstall
      have hfirst' : ∀ j, j < k → heights ((i + 1) + j + 1) ≠ heights ((i + 1) + j) := by
        intro j hj
        have harr : (i + 1) + j = i + (j + 1) := by omega
        rw [harr]
        exact hfirst (j + 1) (by omega)
      have hrec := ih (i + 1) f (by omega) hstall' hfirst'
      have harr : i + (k + 1) + 1 = (i + 1) + k + 1 := by omega
      rw [harr]
      simpa [hne] using hrec

/-- The click loop counts exactly the addresses it records, and clicks at
most one button per list entry. -/
theorem clickButtons_spec :
    ∀ (l : List Boostable) (i : Nat),
      (clickButtons l i).1 = (clickButtons l i).2.1.length ∧
      (clickButtons l i).1 ≤ l.length := by
  intro l
  induction l with
  | nil => intro i; simp [clickButtons]
  | cons hd tl ih =>
    intro i
    obtain ⟨address, btn, text⟩ := hd
    have h1 := ih (i + 1)
    cases hs : btn.scrollIntoView with
    | error ce =>
      simp only [clickButtons, hs]
      constructor
      · exact h1.1
      · exact h1.2.trans (by simp)
    | ok _ =>
      cases hc : btn.clickViaJs with
      | error ce =>
        simp only [clickButtons, hs, hc]
        constructor
        · exact h1.1
        · exact h1.2.trans (by simp)
      | ok _ =>
        simp only [clickButtons, hs, hc, List.length_cons]
        constructor
        · rw [h1.1]
        · omega

/-! ### Worker characterisation -/

theorem worker_fail_eq (env : Env) (e p : String) (n : Int) (hl : Bool) (w : Int)
    (msg : String) (st : WState)
    (h : stagePreClick env initState = .error (msg, st)) :
    selenium_boost_worker env e p n hl w = failResponse env msg st := by
  unfold selenium_boost_worker
  rw [h]

theorem worker_ok_eq (env : Env) (e p : String) (n : Int) (hl : Bool) (w : Int)
    (bs : List Boostable) (st : WState)
    (h : stagePreClick env initState = .ok (bs, st)) :
    selenium_boost_worker env e p n hl w =
      { success := true
        clicked_count := ((clickButtons (bs.take (min n (bs.length : Int)).toNat) 1).1 : Int)
        clicked_addresses := (clickButtons (bs.take (min n (bs.length : Int)).toNat) 1).2.1
        debug_logs := st.logs ++ (clickButtons (bs.take (min n (bs.length : Int)).toNat) 1).2.2
        error := none
        screenshot_base64 := st.shot } := by
  unfold selenium_boost_worker
  rw [h]

/-- The failure response built by the outer except branch: `success=False`,
zero clicks, the exception message in `error`, and the logs extended. -/
theorem failResponse_facts (env : Env) (msg : String) (st : WState) :
    (failResponse env msg st).success = false ∧
    (failResponse env msg st).error = some msg ∧
    (failResponse env msg st).clicked_count = 0 ∧
    (failResponse env msg st).clicked_addresses = [] ∧
    st.logs <+: (failResponse env msg st).debug_logs := by
  unfold failResponse
  cases hd : st.driver with
  | false => simp
  | true =>
    cases hs : env.screenshotResult st.shotCalls with
    | ok b64 => simp [hs, List.append_assoc]
    | error u => simp [hs]

/-- Every outcome of the worker's try-block has the initial log entry as
its first debug log. -/
theorem stagePreClick_head (env : Env) :
    ["Starting Selenium worker"] <+: (outState (stagePreClick env initState)).logs := by
  have hrest : MonoM (mbind (startDriver env) fun _ =>
      mbind (loginPhase env) fun _ => postLoginPhase env) :=
    monoM_mbind (monoM_startDriver env) (fun _ =>
      monoM_mbind (monoM_loginPhase env) (fun _ => monoM_postLoginPhase env))
  exact hrest { logs := ["Starting Selenium worker"], shot := none, shotCalls := 0, driver := false }

/-- When the try-block reaches the click loop, no screenshot was ever
taken (screenshots happen only on paths that raise). -/
theorem stagePreClick_ok_shot (env : Env) (bs : List Boostable) (st : WState)
    (h : stagePreClick env initState = .ok (bs, st)) : st.shot = none := by
  have hp := preservesShot_stagePreClick env initState bs st h
  simpa [initState] using hp

/-- The `boostable` list computed by a run of the worker, when the run
reaches the click loop. -/
def preClickBoostable (env : Env) : Option (List Boostable) :=
  match stagePreClick env initState with
  | .ok (bs, _) => some bs
  | .error _ => none

/-- The debug logs produced by the login flow of src/api.py lines 187-224,
in program order. -/
def loginTrace : List String :=
  ["Starting Selenium worker", "Opened affordablehousing.com", "Clicked homepage Sign In",
   "Entered email", "Clicked first Sign In button", "Entered password",
   "Clicked final Sign In button", "Login confirmed (dashboard)",
   "Navigated to https://www.affordablehousing.com/v4/pages/Listing/Listing.aspx"]

/-! ### The claims -/

/-- C1: on a run that reaches the click loop (a successful
`BoostResponse`), the worker attempts `min(num_buttons, len(boostable))`
clicks, so `clicked_count` is at most `num_buttons` and at most the number
of boostable buttons found (`num_buttons ≥ 1` by the request model's
validation). -/
theorem boost_clicks_bounded (env : Env) (e p : String) (n : Int) (hl : Bool) (w : Int)
    (bs : List Boostable) (hn : 1 ≤ n) (hok : preClickBoostable env = some bs) :
    (selenium_boost_worker env e p n hl w).success = true ∧
    (selenium_boost_worker env e p n hl w).clicked_count ≤ n ∧
    (selenium_boost_worker env e p n hl w).clicked_count ≤ (bs.length : Int) := by
  unfold preClickBoostable at hok
  cases hpre : stagePreClick env initState with
  | error v => rw [hpre] at hok; cases hok
  | ok v =>
    obtain ⟨bs0, st⟩ := v
    rw [hpre] at hok
    simp only [Option.some.injEq] at hok
    subst hok
    rw [worker_ok_eq env e p n hl w bs0 st hpre]
    have hspec := clickButtons_spec (bs0.take (min n (bs0.length : Int)).toNat) 1
    have hlen : (bs0.take (min n (bs0.length : Int)).toNat).length =
        min (min n (bs0.length : Int)).toNat bs0.length := List.length_take _ _
    have hcount : (clickButtons (bs0.take (min n (bs0.length : Int)).toNat) 1).1 ≤
        (min n (bs0.length : Int)).toNat := by
      have h2 := hspec.2
      rw [hlen] at h2
      omega
    have hcountLen : (clickButtons (bs0.take (min n (bs0.length : Int)).toNat) 1).1 ≤
        bs0.length := by
      have h2 := hspec.2
      rw [hlen] at h2
      omega
    have h0 : (0 : Int) ≤ min n (bs0.length : Int) :=
      le_min (by omega) (Int.natCast_nonneg _)
    refine ⟨rfl, ?_, ?_⟩
    · show ((clickButtons (bs0.take (min n (bs0.length : Int)).toNat) 1).1 : Int) ≤ n
      have hc : ((clickButtons (bs0.take (min n (bs0.length : Int)).toNat) 1).1 : Int) ≤
          (((min n (bs0.length : Int)).toNat : Nat) : Int) := by exact_mod_cast hcount
      rw [Int.toNat_of_nonneg h0] at hc
      exact le_trans hc (min_le_left _ _)
    · show ((clickButtons (bs0.take (min n (bs0.length : Int)).toNat) 1).1 : Int) ≤
        (bs0.length : Int)
      exact_mod_cast hcountLen

/-- C1 witness: the concrete fully-successful browser behaviour. -/
theorem boost_clicks_bounded_witness :
    (selenium_boost_worker envHappy "user@example.com" "pw" 1 true 25).success = true ∧
    (selenium_boost_worker envHappy "user@example.com" "pw" 1 true 25).clicked_count ≤ 1 ∧
    (selenium_boost_worker envHappy "user@example.com" "pw" 1 true 25).clicked_count ≤
      ((([(some "123 Main St", happyBtn, "boost now")] : List Boostable)).length : Int) :=
  boost_clicks_bounded envHappy "user@example.com" "pw" 1 true 25
    [(some "123 Main St", happyBtn, "boost now")] (by decide) (by rfl)

/-- C2: every exception that propagates out of the browser flow is caught
by the outer except branch: the worker returns (it does not re-raise) a
`BoostResponse` with `success=False`, `error` holding the exception's
message, and the logs accumulated up to the raise included in
`debug_logs`. -/
theorem exception_returns_failure (env : Env) (e p : String) (n : Int) (hl : Bool) (w : Int)
    (msg : String) (st : WState)
    (hfail : stagePreClick env initState = .error (msg, st)) :
    (selenium_boost_worker env e p n hl w).success = false ∧
    (selenium_boost_worker env e p n hl w).error = some msg ∧
    st.logs <+: (selenium_boost_worker env e p n hl w).debug_logs := by
  rw [worker_fail_eq env e p n hl w msg st hfail]
  have h := failResponse_facts env msg st
  exact ⟨h.1, h.2.1, h.2.2.2.2⟩

/-- C2 witness: driver creation raises `boom`. -/
theorem exception_returns_failure_witness :
    (selenium_boost_worker envFail "e" "p" 1 true 25).success = false ∧
    (selenium_boost_worker envFail "e" "p" 1 true 25).error = some "boom" ∧
    ["Starting Selenium worker"] <+: (selenium_boost_worker envFail "e" "p" 1 true 25).debug_logs :=
  exception_returns_failure envFail "e" "p" 1 true 25 "boom"
    { logs := ["Starting Selenium worker"], shot := none, shotCalls := 0, driver := false } rfl

/-- C3 counterexample: a fully successful run returns
`screenshot_base64 = None` — the worker takes a screenshot only on
diagnostic/error paths, so not every response carries one. -/
theorem success_without_screenshot :
    (selenium_boost_worker envHappy "e" "p" 1 true 25).success = true ∧
    (selenium_boost_worker envHappy "e" "p" 1 true 25).screenshot_base64 = none :=
  ⟨rfl, rfl⟩

/-- C3 (amended): every response carries the debug log list (it always
contains the initial entry), but `screenshot_base64` is `None` on every
successful run; it can be non-null only on failure/diagnostic paths. -/
theorem response_always_carries_logs (env : Env) (e p : String) (n : Int) (hl : Bool) (w : Int) :
    "Starting Selenium worker" ∈ (selenium_boost_worker env e p n hl w).debug_logs ∧
    ((selenium_boost_worker env e p n hl w).success = true →
      (selenium_boost_worker env e p n hl w).screenshot_base64 = none) := by
  cases hpre : stagePreClick env initState with
  | error v =>
    obtain ⟨msg, st⟩ := v
    rw [worker_fail_eq env e p n hl w msg st hpre]
    constructor
    · have hh := stagePreClick_head env
      rw [hpre] at hh
      simp only [outState] at hh
      have hpref := (failResponse_facts env msg st).2.2.2.2
      exact (hh.trans hpref).subset (by simp)
    · intro hsucc
      have hs := (failResponse_facts env msg st).1
      rw [hs] at hsucc
      cases hsucc
  | ok v =>
    obtain ⟨bs, st⟩ := v
    rw [worker_ok_eq env e p n hl w bs st hpre]
    constructor
    · have hh := stagePreClick_head env
      rw [hpre] at hh
      simp only [outState] at hh
      exact (hh.trans (List.prefix_append _ _)).subset (by simp)
    · intro _
      exact stagePreClick_ok_shot env bs st hpre

/-- C3 (amended) witness. -/
theorem response_always_carries_logs_witness :
    "Starting Selenium worker" ∈ (selenium_boost_worker envHappy "e2" "p2" 2 true 25).debug_logs ∧
    ((selenium_boost_worker envHappy "e2" "p2" 2 true 25).success = true →
      (selenium_boost_worker envHappy "e2" "p2" 2 true 25).screenshot_base64 = none) :=
  response_always_carries_logs envHappy "e2" "p2" 2 true 25

/-- C4 counterexample: the FastAPI application registers two routes
(`POST /boost` and `GET /diag`), not one. -/
theorem single_route_refuted : ¬ (app_routes.length = 1) := by decide

/-- C4 (amended): the application exposes exactly two HTTP routes: the
boost endpoint `POST /boost` and the diagnostics endpoint `GET /diag`. -/
theorem app_has_two_routes :
    app_routes = [(HttpMethod.post, "/boost"), (HttpMethod.get, "/diag")] ∧
    app_routes.length = 2 :=
  ⟨rfl, rfl⟩

/-- C5: the incremental scroll loop runs at most
`DEFAULT_MAX_SCROLL_LOOPS = 60` iterations, and when the observed
`document.body.scrollHeight` first repeats at iteration `k` the loop exits
right there with `k + 1` iterations done. -/
theorem scroll_loop_bounded (env : Env) (heights : Nat → Int) (k : Nat)
    (hH : ∀ n, env.scrollHeight n = .ok (heights n))
    (hB : ∀ n, env.scrollBy n = .ok ())
    (hk : k < DEFAULT_MAX_SCROLL_LOOPS)
    (hstall : heights (k + 1) = heights k)
    (hfirst : ∀ j, j < k → heights (j + 1) ≠ heights j) :
    scrollLoopAux env (heights 0) 0 DEFAULT_MAX_SCROLL_LOOPS = .ok (k + 1) ∧
    k + 1 ≤ DEFAULT_MAX_SCROLL_LOOPS ∧
    ∀ (env2 : Env) (h0 : Int) (m : Nat),
      scrollLoopAux env2 h0 0 DEFAULT_MAX_SCROLL_LOOPS = .ok m →
      m ≤ DEFAULT_MAX_SCROLL_LOOPS := by
  refine ⟨?_, by omega, ?_⟩
  · have h := scrollLoopAux_stall env heights hH hB k 0 DEFAULT_MAX_SCROLL_LOOPS hk
      (by simpa using hstall) (fun j hj => by simpa using hfirst j hj)
    simpa using h
  · intro env2 h0 m hm
    have h := scrollLoopAux_le env2 DEFAULT_MAX_SCROLL_LOOPS h0 0 m hm
    omega

/-- The scroll heights `envHappy` reports: 100, then 200 forever (the
height stalls at the second loop iteration). -/
def heightsW : Nat → Int := fun n => if n = 0 then 100 else 200

/-- C5 witness: with `heightsW` the loop exits after exactly 2 of the 60
allowed iterations. -/
theorem scroll_loop_bounded_witness :
    scrollLoopAux envHappy (heightsW 0) 0 DEFAULT_MAX_SCROLL_LOOPS = .ok 2 ∧
    2 ≤ DEFAULT_MAX_SCROLL_LOOPS ∧
    ∀ (env2 : Env) (h0 : Int) (m : Nat),
      scrollLoopAux env2 h0 0 DEFAULT_MAX_SCROLL_LOOPS = .ok m →
      m ≤ DEFAULT_MAX_SCROLL_LOOPS :=
  scroll_loop_bounded envHappy heightsW 1 (fun _ => rfl) (fun _ => rfl) (by decide) (by decide)
    (fun j hj => by
      have hj0 : j = 0 := by omega
      subst hj0
      decide)

/-- C6: whenever the login-flow browser operations succeed, the worker
performs them in the fixed order homepage → sign-in link → email → first
sign-in button → password → final sign-in button → dashboard wait, and
only then navigates to the listing page — witnessed by the debug log
trace, which starts with exactly these entries in this order whatever
happens afterwards. -/
theorem login_steps_in_order (env : Env) (e p : String) (n : Int) (hl : Bool) (w : Int)
    (h1 : env.driverOk = .ok ()) (h2 : env.openHome = .ok ())
    (h3 : env.clickHomeSignIn = .ok ()) (h4 : env.emailVisible = .ok ())
    (h5 : env.emailClear = .ok ()) (h6 : env.emailKeys = .ok ())
    (h7 : env.clickSignIn1 = .ok ()) (h8 : env.passVisible = .ok ())
    (h9 : env.passClear = .ok ()) (h10 : env.passKeys = .ok ())
    (h11 : env.clickSignIn2 = .ok ()) (h12 : env.urlDashboard = .ok ())
    (h13 : env.openListing = .ok ()) :
    loginTrace <+: (selenium_boost_worker env e p n hl w).debug_logs := by
  have hrun : stagePreClick env initState =
      postLoginPhase env { logs := loginTrace, shot := none, shotCalls := 0, driver := true } := by
    unfold stagePreClick loginPhase
    simp [mbind, logMsg, startDriver, liftStep, h1, h2, h3, h4, h5, h6, h7, h8, h9, h10,
      h11, h12, h13, initState, loginTrace, listing_url]
  cases hpost : postLoginPhase env
      { logs := loginTrace, shot := none, shotCalls := 0, driver := true } with
  | ok v =>
    obtain ⟨bs, st⟩ := v
    have hpre : stagePreClick env initState = .ok (bs, st) := by rw [hrun, hpost]
    rw [worker_ok_eq env e p n hl w bs st hpre]
    have hmono := monoM_postLoginPhase env
      { logs := loginTrace, shot := none, shotCalls := 0, driver := true }
    rw [hpost] at hmono
    simp only [outState] at hmono
    exact hmono.trans (List.prefix_append _ _)
  | error v =>
    obtain ⟨msg, st⟩ := v
    have hpre : stagePreClick env initState = .error (msg, st) := by rw [hrun, hpost]
    rw [worker_fail_eq env e p n hl w msg st hpre]
    have hmono := monoM_postLoginPhase env
      { logs := loginTrace, shot := none, shotCalls := 0, driver := true }
    rw [hpost] at hmono
    simp only [outState] at hmono
    exact hmono.trans (failResponse_facts env msg st).2.2.2.2

/-- C6 witness. -/
theorem login_steps_in_order_witness :
    loginTrace <+: (selenium_boost_worker envHappy "e3" "p3" 1 true 25).debug_logs :=
  login_steps_in_order envHappy "e3" "p3" 1 true 25
    rfl rfl rfl rfl rfl rfl rfl rfl rfl rfl rfl rfl rfl

/-- C7: the endpoint runs the worker only through the
`run_in_executor` wrapper (the blocking browser session happens in the
executor thread, never inline on the event loop — see `boost_endpoint`,
whose only call of the worker is the closure handed to
`run_in_executor`), and when the executor raises no fault it returns the
worker's `BoostResponse` unchanged. -/
theorem endpoint_returns_worker_unchanged (env : Env) (req : BoostRequest) :
    boost_endpoint env none req =
      .ok (selenium_boost_worker env req.email req.password req.num_buttons req.headless
        (pyOr req.wait_time DEFAULT_WAIT_TIME)) :=
  rfl

/-- C8: in every response of the worker, success or failure,
`clicked_count` equals the length of `clicked_addresses`. -/
theorem clicked_count_matches_addresses (env : Env) (e p : String) (n : Int) (hl : Bool)
    (w : Int) :
    (selenium_boost_worker env e p n hl w).clicked_count =
      ((selenium_boost_worker env e p n hl w).clicked_addresses.length : Int) := by
  cases hpre : stagePreClick env initState with
  | error v =>
    obtain ⟨msg, st⟩ := v
    rw [worker_fail_eq env e p n hl w msg st hpre]
    have h := failResponse_facts env msg st
    rw [h.2.2.1, h.2.2.2.1]
    rfl
  | ok v =>
    obtain ⟨bs, st⟩ := v
    rw [worker_ok_eq env e p n hl w bs st hpre]
    have h := (clickButtons_spec (bs.take (min n (bs.length : Int)).toNat) 1).1
    show ((clickButtons (bs.take (min n (bs.length : Int)).toNat) 1).1 : Int) =
      ((clickButtons (bs.take (min n (bs.length : Int)).toNat) 1).2.1.length : Int)
    exact_mod_cast h

/-- C9: whenever the worker's response has `success=False`, the response
reports `clicked_count=0` and an empty `clicked_addresses` list — the
except branch rebuilds them from scratch regardless of any clicks that
happened before the exception. -/
theorem failure_reports_zero (env : Env) (e p : String) (n : Int) (hl : Bool) (w : Int)
    (h : (selenium_boost_worker env e p n hl w).success = false) :
    (selenium_boost_worker env e p n hl w).clicked_count = 0 ∧
    (selenium_boost_worker env e p n hl w).clicked_addresses = [] := by
  cases hpre : stagePreClick env initState with
  | error v =>
    obtain ⟨msg, st⟩ := v
    rw [worker_fail_eq env e p n hl w msg st hpre]
    exact ⟨(failResponse_facts env msg st).2.2.1, (failResponse_facts env msg st).2.2.2.1⟩
  | ok v =>
    obtain ⟨bs, st⟩ := v
    rw [worker_ok_eq env e p n hl w bs st hpre] at h
    cases h

/-- C9 witness. -/
theorem failure_reports_zero_witness :
    (selenium_boost_worker envFail "e4" "p4" 1 true 25).clicked_count = 0 ∧
    (selenium_boost_worker envFail "e4" "p4" 1 true 25).clicked_addresses = [] :=
  failure_reports_zero envFail "e4" "p4" 1 true 25 rfl

/-- C10: the request model's validation (`Field(1, ge=1)`) only accepts
`num_buttons ≥ 1` (and keeps the submitted value), and rejects any value
below 1 — so the endpoint, which passes `req.num_buttons` of a validated
request to the worker, only ever invokes `selenium_boost_worker` with
`num_buttons ≥ 1`. -/
theorem num_buttons_validated (e p : String) (n : Int) (hl : Bool) (w : Option Int) :
    (∀ req, validateBoostRequest e p n hl w = .ok req →
      1 ≤ req.num_buttons ∧ req.num_buttons = n) ∧
    (n < 1 → validateBoostRequest e p n hl w =
      .error "num_buttons: ensure this value is greater than or equal to 1") := by
  constructor
  · intro req hreq
    unfold validateBoostRequest at hreq
    by_cases hn : 1 ≤ n
    · rw [if_pos hn] at hreq
      simp only [Except.ok.injEq] at hreq
      subst hreq
      exact ⟨hn, rfl⟩
    · rw [if_neg hn] at hreq
      cases hreq
  · intro hn
    unfold validateBoostRequest
    rw [if_neg (by omega)]

/-- C10 witness: `num_buttons = 2` passes validation with the value kept;
`num_buttons = 0` is rejected. -/
theorem num_buttons_validated_witness :
    (1 ≤ ({ email := "a", password := "b", num_buttons := 2, headless := true,
            wait_time := some 25 } : BoostRequest).num_buttons ∧
      ({ email := "a", password := "b", num_buttons := 2, headless := true,
         wait_time := some 25 } : BoostRequest).num_buttons = 2) ∧
    validateBoostRequest "a" "b" 0 true (some 25) =
      .error "num_buttons: ensure this value is greater than or equal to 1" :=
  ⟨(num_buttons_validated "a" "b" 2 true (some 25)).1 _ rfl,
   (num_buttons_validated "a" "b" 0 true (some 25)).2 (by decide)⟩
